import Mathlib

/-!
Verification of the pybids variable/transformation core
(`bids/analysis/variables/variables.py` and `bids/events/transform/compute.py`)
through a shallow embedding in Lean.

Numeric data (onsets, durations, amplitudes, sampling rates) is embedded as
rationals; pandas Series / numpy arrays become `List ℚ`; fallible Python code
returns `Except String`.
-/

/- ## Rational helpers mirroring Python / numpy numeric primitives -/

/-- Floor of a rational, as used by `math.floor`.  `Rat` keeps `den > 0`,
so flooring is floored integer division of `num` by `den`. -/
def floorQ (q : ℚ) : ℤ := q.num.fdiv q.den

/-- Ceiling of a rational, as used by `math.ceil` / `np.ceil`. -/
def ceilQ (q : ℚ) : ℤ := -(floorQ (-q))

/-- Python 3 / numpy rounding: round half to even. -/
def pyRound (q : ℚ) : ℤ :=
  let f := floorQ q
  let frac := q - (f : ℚ)
  if frac < 1/2 then f
  else if 1/2 < frac then f + 1
  else if f % 2 = 0 then f else f + 1

/- ## Embedding of `bids/events/transform/compute.py` -/

/-- Row-wise dot product of a list of equal-length columns with a weight
vector, one weight per column: embeds `pd.concat(data, axis=1).dot(weights)`
from `sum._transform` (compute.py lines 35-36). -/
def dotCols : List (List ℚ) → List ℚ → List ℚ
  | [], _ => []
  | _, [] => []
  | [c], x :: _ => c.map (fun v => x * v)
  | c :: cs, x :: ws => List.zipWith (· + ·) (c.map (fun v => x * v)) (dotCols cs ws)

/-- The ValueError message raised by `sum._transform` on a weight-count
mismatch (compute.py lines 32-34; the source's string concatenation lacks a
space, producing "columnsbeing"). -/
def sum_weights_msg : String :=
  "If weights are passed to sum(), the number of elements must equal the number of columnsbeing summed."

/-- Embeds `sum._transform(data, weights)` (compute.py lines 27-36).
The Transformation dispatch layer (`base.py`) is not part of the excerpt;
per the spec, Sum is a joint (non-loopable) combination of the selected
input columns, so `data` is modelled as the list of input columns and
`data.shape[1]` as the number of columns, with `weights` either `None` or a
flat numeric vector (`len(weights.ravel())` is its length).  With no weights
a vector of ones of length `data.shape[1]` is used; with weights of the
wrong length a ValueError is raised; otherwise the result is
`data.dot(weights)`. -/
def sum_transform (data : List (List ℚ)) (weights : Option (List ℚ)) :
    Except String (List ℚ) :=
  match weights with
  | none => .ok (dotCols data (List.replicate data.length 1))
  | some w =>
      if w.length ≠ data.length then .error sum_weights_msg
      else .ok (dotCols data w)

/-- Embeds `threshold._transform(data, threshold, binarize, above, signed)`
(compute.py lines 94-104), with `data` a numeric series:
`if not signed: threshold = abs(threshold); data = data.abs()`;
`keep = data >= threshold if above else data <= threshold`;
`data[~keep] = 0`; `if binarize: data[keep] = 1`. -/
def threshold_transform (data : List ℚ) (threshold : ℚ)
    (binarize above signed : Bool) : List ℚ :=
  let t := if signed then threshold else |threshold|
  let d := if signed then data else data.map (fun x => |x|)
  let keep := d.map (fun x => if above then decide (t ≤ x) else decide (x ≤ t))
  let d1 := List.zipWith (fun (x : ℚ) k => if k then x else 0) d keep
  if binarize then List.zipWith (fun (x : ℚ) k => if k then 1 else x) d1 keep
  else d1

/-- Pointwise value of `threshold._transform` on one entry. -/
def thrPoint (t : ℚ) (binarize above signed : Bool) (x : ℚ) : ℚ :=
  let t' := if signed then t else |t|
  let y := if signed then x else |x|
  if (if above then decide (t' ≤ y) else decide (y ≤ t')) then
    (if binarize then 1 else y)
  else 0

/- ## Embedding of `bids/analysis/variables/variables.py` -/

/-- The run descriptor consumed by `DenseRunVariable.build_entity_index`
and stored in `run_info`: a mapping of entities plus the run duration in
seconds.  (The source's extra fields — repetition time, sample count, image
file — are not read by any code under verification.) -/
structure RunInfo where
  entities : List (String × String)
  duration : ℚ
deriving Repr, DecidableEq

/-- One row of the entity index built by
`DenseRunVariable.build_entity_index`: the run's entity values broadcast to
the sample, plus the synthetic `time` column in milliseconds
(`pd.date_range(0, periods=len(df), freq='%sms' % sr)`, restarting at 0 for
every run). -/
structure EntityRow where
  ents : List (String × String)
  time : ℤ
deriving Repr, DecidableEq

/-- Embeds the static method `DenseRunVariable.build_entity_index(run_info,
sampling_rate)` (variables.py lines 284-295): `sr = int(round(1000. /
sampling_rate))`; for each run, `reps = int(math.ceil(run.duration *
sampling_rate))` rows of that run's entities, with a per-run time column
`0, sr, 2*sr, ...` ms; all runs concatenated. -/
def build_entity_index (run_info : List RunInfo) (sampling_rate : ℚ) :
    List EntityRow :=
  let sr := pyRound (1000 / sampling_rate)
  (run_info.map (fun run =>
    let reps := (ceilQ (run.duration * sampling_rate)).toNat
    (List.range reps).map (fun j => EntityRow.mk run.entities ((j : ℤ) * sr)))).flatten

/-- Embeds a `DenseRunVariable` instance: `name`, `values` (one scalar per
uniform time sample), `run_info`, `sampling_rate`, and the `entities` index
assigned by `__init__` (and reassigned by `resample`). -/
structure DenseRunVariable where
  name : String
  values : List ℚ
  run_info : List RunInfo
  sampling_rate : ℚ
  entities : List EntityRow
deriving Repr, DecidableEq

/-- Embeds `DenseRunVariable.__init__(name, values, run_info,
sampling_rate)` (variables.py lines 239-248): stores the four arguments and
sets `entities = build_entity_index(run_info, sampling_rate)`.  (The
`listify` of a single run descriptor is handled by taking a list.)  All
four arguments are required — the constructor has no defaults. -/
def DenseRunVariable.make (name : String) (values : List ℚ)
    (run_info : List RunInfo) (sampling_rate : ℚ) : DenseRunVariable :=
  ⟨name, values, run_info, sampling_rate,
    build_entity_index run_info sampling_rate⟩

/-- The TypeError raised when `DenseRunVariable` is constructed with only
`(name, values)`: its `__init__` requires `run_info` and `sampling_rate` as
well (variables.py line 239), and both `SparseRunVariable.to_dense` (line
225) and `DenseRunVariable.split` (lines 267-269) omit them. -/
def missing_args_msg : String :=
  "TypeError: __init__ missing 2 required positional arguments: run_info and sampling_rate"

/-- Embeds `DenseRunVariable.split(grouper)` (variables.py lines 255-269).
`grouper` is a binary indicator DataFrame, modelled as a list of named
columns.  The source computes `df = grouper * self.values` (modelled as
column-wise multiplication; pandas would actually align the Series index
against the grouper's columns, but the product is discarded) and then
builds `DenseRunVariable('%s.%s' % (self.name, name), df[name].values)` for
each column — a call that omits the required `run_info` and
`sampling_rate` arguments, so the first constructed result raises
TypeError.  Only an empty grouper (no columns) returns a value: `[]`. -/
def DenseRunVariable.split (v : DenseRunVariable)
    (grouper : List (String × List ℚ)) :
    Except String (List DenseRunVariable) :=
  let df := grouper.map (fun col => (col.1, List.zipWith (· * ·) col.2 v.values))
  match df with
  | [] => .ok []
  | _ :: _ => .error missing_args_msg

/-- Whether `scipy.interpolate.interp1d(x, y, kind='linear')` raises
ValueError at construction, given `len(x) = n` and `len(y) = m`: it
requires at least 2 entries and equal lengths. -/
def interp1d_fails (n m : ℕ) : Bool := n < 2 || m ≠ n

/-- The ValueError raised by `interp1d` on invalid input arrays. -/
def interp_err_msg : String :=
  "ValueError: x and y arrays must have at least 2 entries and be equal in length"

/-- `np.linspace a b num` with endpoint included. -/
def linspaceQ (a b : ℚ) (num : ℕ) : List ℚ :=
  if num = 0 then []
  else if num = 1 then [a]
  else (List.range num).map (fun j => a + (b - a) * (j : ℚ) / ((num : ℚ) - 1))

/-- Linear interpolation of the series `ys` (sampled at integer positions
`0, 1, ...`) at position `x`, as `interp1d(arange(n), ys)(x)` evaluates it
for `x` within `[0, n-1]` (the only range `resample` uses). -/
def linInterp (ys : List ℚ) (x : ℚ) : ℚ :=
  let i := (floorQ x).toNat
  let y0 := ys.getD i 0
  let y1 := ys.getD (i + 1) 0
  y0 + (x - (i : ℚ)) * (y1 - y0)

/-- State of `self` after `DenseRunVariable.resample(sampling_rate,
inplace=True, kind='linear')` (variables.py lines 297-327), including the
state left behind when `interp1d` raises.  The embedding fixes
`kind='linear'` (the default; the claims under verification do not involve
other kinds).  Mirrors the source's statement order: return unchanged if
the rate is equal (line 312-313); capture `old_sr` and `n = len(self.index)`
(lines 315-316); assign `self.entities = build_entity_index(self.run_info,
sampling_rate)` (line 318); then construct the interpolant — if `interp1d`
raises, execution stops with only `entities` reassigned — and finally
assign `self.values` and `self.sampling_rate` (lines 320-327). -/
def DenseRunVariable.resample_inplace (v : DenseRunVariable) (rate : ℚ) :
    DenseRunVariable :=
  if rate = v.sampling_rate then v
  else
    let old_sr := v.sampling_rate
    let n := v.entities.length
    let v1 := { v with entities := build_entity_index v.run_info rate }
    if interp1d_fails n v.values.length then v1
    else
      let num := (ceilQ ((n : ℚ) * rate / old_sr)).toNat
      let x_new := linspaceQ 0 ((n : ℚ) - 1) num
      { v1 with values := x_new.map (fun x => linInterp v.values x),
                sampling_rate := rate }

/-- Whether a call to `resample` completes without raising: always when the
requested rate equals the current rate (the early return precedes
interpolation), otherwise exactly when `interp1d` accepts the arrays. -/
def DenseRunVariable.resample_ok (v : DenseRunVariable) (rate : ℚ) : Bool :=
  decide (rate = v.sampling_rate)
    || !(interp1d_fails v.entities.length v.values.length)

/-- Return value of `DenseRunVariable.resample(sampling_rate, inplace,
kind='linear')`: the in-place branch ends in a bare `return` (or falls off
the end), i.e. returns `None`; the copying branch clones `self`, resamples
the clone in place and returns the clone; an `interp1d` ValueError
propagates to the caller in either mode. -/
def DenseRunVariable.resample (v : DenseRunVariable) (rate : ℚ)
    (inplace : Bool) : Except String (Option DenseRunVariable) :=
  if v.resample_ok rate then
    if inplace then .ok none else .ok (some (v.resample_inplace rate))
  else .error interp_err_msg

/-- Embeds a `SparseRunVariable`: per-event `onset` and `duration` columns
(seconds), the `amplitude` column stored as `values`, the per-row entity
index, and the run descriptors. -/
structure SparseRunVariable where
  name : String
  onset : List ℚ
  duration : List ℚ
  values : List ℚ
  entities : List (List (String × String))
  run_info : List RunInfo
deriving Repr, DecidableEq

/-- The TypeError Python raises when converting a numpy array that does not
have exactly one element to a scalar float (as `math.ceil` does to its
argument). -/
def float_conv_msg : String :=
  "TypeError: only size-1 arrays can be converted to Python scalars"

/-- Conversion of a numpy array to a Python float: succeeds exactly on
one-element arrays. -/
def floatOfArray (xs : List ℚ) : Except String ℚ :=
  match xs with
  | [x] => .ok x
  | _ => .error float_conv_msg

/-- Embeds variables.py line 215, `duration = math.ceil(sampling_rate *
self.duration)`, the length of the zero buffer allocated by `to_dense`:
`self.duration` is the per-event duration column (a numpy array), so
`math.ceil` converts it to a float — which only succeeds when the variable
has exactly one event — and the buffer is sized from that event duration,
not from the run's duration. -/
def SparseRunVariable.to_dense_buflen (v : SparseRunVariable) (rate : ℚ) :
    Except String ℕ :=
  (floatOfArray (v.duration.map (fun d => rate * d))).map
    (fun d => (ceilQ d).toNat)

/-- Normalization of an integer slice bound against a length-`n` sequence,
as Python slicing does: negative indices count from the end, and both ends
are clamped into `[0, n]`. -/
def pySliceIdx (i : ℤ) (n : ℕ) : ℕ :=
  if i < 0 then (max 0 ((n : ℤ) + i)).toNat else min i.toNat n

/-- numpy slice assignment `ts[a:b] = x`: positions of `[a, b)` that fall
inside the buffer receive `x`; out-of-range parts are silently clipped. -/
def sliceAssign (ts : List ℚ) (a b : ℤ) (x : ℚ) : List ℚ :=
  let lo := pySliceIdx a ts.length
  let hi := pySliceIdx b ts.length
  ts.mapIdx (fun j v => if lo ≤ j ∧ j < hi then x else v)

/-- Embeds the buffer computation of `SparseRunVariable.to_dense`
(variables.py lines 215-223): allocate `np.zeros` of the line-215 length;
`onsets = round(self.onset * sampling_rate).astype(int)`; `durations =
round(self.duration * sampling_rate).astype(int)` (rounding modelled
elementwise, half to even); then for each event `i`,
`ts[onsets[i]:onsets[i] + durations[i]] = self.values[i]` — a plain slice
assignment, which overwrites and is clipped at the buffer bounds. -/
def SparseRunVariable.to_dense_ts (v : SparseRunVariable) (rate : ℚ) :
    Except String (List ℚ) :=
  (v.to_dense_buflen rate).map (fun buflen =>
    let onsets := v.onset.map (fun o => pyRound (o * rate))
    let durations := v.duration.map (fun d => pyRound (d * rate))
    (List.range v.values.length).foldl
      (fun ts i =>
        sliceAssign ts (onsets.getD i 0)
          (onsets.getD i 0 + durations.getD i 0) (v.values.getD i 0))
      (List.replicate buflen 0))

/-- Embeds `SparseRunVariable.to_dense(sampling_rate)` (variables.py lines
212-225) end to end: the buffer computation above, followed by line 225,
`return DenseRunVariable(self.name, pd.DataFrame(ts))` — a constructor
call that omits the required `run_info` and `sampling_rate` parameters and
therefore raises TypeError on every path that reaches it. -/
def SparseRunVariable.to_dense (v : SparseRunVariable) (rate : ℚ) :
    Except String DenseRunVariable :=
  match v.to_dense_ts rate with
  | .error e => .error e
  | .ok _ => .error missing_args_msg

/-- Embeds a `SimpleVariable`: `name`, the `amplitude` column stored as
`values`, and the per-row entity index. -/
structure SimpleVariable where
  name : String
  values : List ℚ
  entities : List (List (String × String))
deriving Repr, DecidableEq

/-- The ValueError raised by `BIDSVariable.merge` when the inputs carry
more than one distinct name (variables.py lines 57-59).  The source message
additionally interpolates the set of offending names
(`"... Column names provided: %s" % col_names`); the constant prefix is
modelled. -/
def name_conflict_msg : String :=
  "Columns with different names cannot be merged."

/-- Embeds `BIDSVariable.merge(columns, name=None)` specialised to
`SimpleVariable` (variables.py lines 53-64 with `SimpleVariable._merge`,
lines 188-193): first, if the inputs carry more than one distinct name, a
ValueError is raised — before the `name` override is ever consulted; then
`name` defaults to `columns[0].name` (IndexError on an empty list), and
`_merge` concatenates the rows (`pd.concat` raises on an empty list). -/
def SimpleVariable.merge (vars : List SimpleVariable)
    (name : Option String) : Except String SimpleVariable :=
  if 1 < ((vars.map (fun v => v.name)).dedup).length then
    .error name_conflict_msg
  else
    match vars, name with
    | [], none => .error "IndexError: list index out of range"
    | [], some _ => .error "ValueError: No objects to concatenate"
    | v :: _, _ =>
        .ok ⟨name.getD v.name,
          (vars.map (fun u => u.values)).flatten,
          (vars.map (fun u => u.entities)).flatten⟩

/- ## Concrete instances used as counterexamples, failing inputs and
witnesses -/

/-- A 20-second run descriptor. -/
def run20 : RunInfo := ⟨[("subject", "01")], 20⟩

/-- Failing input for C1: two overlapping events — `[0, 1)` and
`[0.5, 1.5)` seconds with amplitudes 1 and 2 — in a 20-second run. -/
def exOverlap : SparseRunVariable :=
  ⟨"cond", [0, 1/2], [1, 1], [1, 2],
    [[("subject", "01")], [("subject", "01")]], [run20]⟩

/-- Failing input for C2: a single event of duration 1.2 s at onset 0 in a
20-second run. -/
def exSingle : SparseRunVariable :=
  ⟨"cond", [0], [6/5], [1], [[("subject", "01")]], [run20]⟩

/-- Failing input for C8: a single event of duration 1.2 s at onset 2 s —
its sample range `[20, 32)` lies beyond the 12-sample buffer the code
allocates from the event duration. -/
def exLate : SparseRunVariable :=
  ⟨"cond", [2], [6/5], [1], [[("subject", "01")]], [run20]⟩

/-- A well-formed dense variable: 2 samples at 2 Hz over a 1-second run. -/
def exDense : DenseRunVariable :=
  DenseRunVariable.make "v" [1, 2] [⟨[("run", "1")], 1⟩] 2

/-- A dense variable with a single sample (0.9-second run at 1 Hz): linear
`interp1d` rejects a 1-entry array, so resampling it raises. -/
def exShort : DenseRunVariable :=
  DenseRunVariable.make "v" [5] [⟨[("subject", "01")], 9/10⟩] 1

/-- Variables named "a" and "b" with one row each, for the merge claims. -/
def varA : SimpleVariable := ⟨"a", [1], [[("subject", "01")]]⟩

/-- See `varA`. -/
def varB : SimpleVariable := ⟨"b", [2], [[("subject", "02")]]⟩

/-- A second variable named "a", mergeable with `varA`. -/
def varA2 : SimpleVariable := ⟨"a", [3], [[("subject", "03")]]⟩

/- ## Generic list lemmas -/

lemma zipWith_self_map {α β γ : Type} (g : α → β → γ) (f : α → β) (l : List α) :
    List.zipWith g l (l.map f) = l.map (fun x => g x (f x)) := by
  induction l with
  | nil => rfl
  | cons x xs ih => simp [ih]

lemma zipWith_self {α γ : Type} (g : α → α → γ) (l : List α) :
    List.zipWith g l l = l.map (fun x => g x x) := by
  induction l with
  | nil => rfl
  | cons x xs ih => simp [ih]

lemma zipWith_map_both {α β α' β' γ : Type} (g : α' → β' → γ) (f₁ : α → α')
    (f₂ : β → β') (l₁ : List α) (l₂ : List β) :
    List.zipWith g (l₁.map f₁) (l₂.map f₂)
      = List.zipWith (fun x y => g (f₁ x) (f₂ y)) l₁ l₂ := by
  induction l₁ generalizing l₂ with
  | nil => rfl
  | cons x xs ih => cases l₂ with
    | nil => rfl
    | cons y ys => simp [ih]

/- ## Lemmas about `threshold._transform` -/

lemma threshold_mask_zero (d : List ℚ) (f : ℚ → Bool) :
    List.zipWith (fun (x : ℚ) k => if k then x else 0) d (d.map f)
      = d.map (fun x => if f x then x else 0) :=
  zipWith_self_map _ f d

lemma threshold_mask_binarize (d : List ℚ) (f : ℚ → Bool) :
    List.zipWith (fun (x : ℚ) k => if k then 1 else x)
        (List.zipWith (fun (x : ℚ) k => if k then x else 0) d (d.map f))
        (d.map f)
      = d.map (fun x => if f x then 1 else 0) := by
  rw [threshold_mask_zero, zipWith_map_both, zipWith_self]
  refine congrArg (fun g => List.map g d) ?_
  funext x
  by_cases hx : f x = true <;> simp [hx]

lemma threshold_transform_eq_map (data : List ℚ) (t : ℚ)
    (binarize above signed : Bool) :
    threshold_transform data t binarize above signed
      = data.map (thrPoint t binarize above signed) := by
  cases signed with
  | true =>
    cases binarize with
    | true =>
      exact threshold_mask_binarize data
        (fun x => if above then decide (t ≤ x) else decide (x ≤ t))
    | false =>
      exact threshold_mask_zero data
        (fun x => if above then decide (t ≤ x) else decide (x ≤ t))
  | false =>
    cases binarize with
    | true =>
      calc threshold_transform data t true above false
          = (data.map (fun x => |x|)).map
              (fun x => if (if above then decide (|t| ≤ x) else decide (x ≤ |t|))
                then (1 : ℚ) else 0) :=
            threshold_mask_binarize _ _
        _ = data.map (thrPoint t true above false) := by
            rw [List.map_map]
            exact rfl
    | false =>
      calc threshold_transform data t false above false
          = (data.map (fun x => |x|)).map
              (fun x => if (if above then decide (|t| ≤ x) else decide (x ≤ |t|))
                then x else 0) :=
            threshold_mask_zero _ _
        _ = data.map (thrPoint t false above false) := by
            rw [List.map_map]
            exact rfl

lemma sum_map_ite_count (data : List ℚ) (p : ℚ → Prop) [DecidablePred p] :
    (data.map (fun x => if p x then (1 : ℚ) else 0)).sum
      = (data.countP (fun x => decide (p x)) : ℚ) := by
  induction data with
  | nil => simp
  | cons x xs ih =>
    by_cases hx : p x <;> simp [hx, ih, List.countP_cons, add_comm]

/- ## Claim theorems -/

/-- C7: `Threshold` with `above=True`, `signed=True`, `binarize=True` and
threshold `t` maps every entry with value `≥ t` to 1 and every other entry
to 0; consequently the sum of the binarized output equals the count of
input values `≥ t`.  With `signed=False`, both the data and the threshold
are replaced by their absolute values before the comparison (the transform
then behaves exactly like the signed transform on `|data|` and `|t|`). -/
theorem threshold_binarize_counts :
    ∀ (data : List ℚ) (t : ℚ),
      threshold_transform data t true true true
          = data.map (fun x => if t ≤ x then (1 : ℚ) else 0)
        ∧ (threshold_transform data t true true true).sum
            = (data.countP (fun x => decide (t ≤ x)) : ℚ)
        ∧ ∀ (binarize above : Bool),
            threshold_transform data t binarize above false
              = threshold_transform (data.map (fun x => |x|)) |t|
                  binarize above true := by
  intro data t
  have h1 : threshold_transform data t true true true
      = data.map (fun x => if t ≤ x then (1 : ℚ) else 0) := by
    rw [threshold_transform_eq_map]
    refine congrArg (fun g => List.map g data) ?_
    funext x
    simp [thrPoint]
  refine ⟨h1, ?_, ?_⟩
  · rw [h1]
    exact sum_map_ite_count data (fun x => t ≤ x)
  · intro binarize above
    rw [threshold_transform_eq_map, threshold_transform_eq_map, List.map_map]
    refine congrArg (fun g => List.map g data) ?_
    funext x
    cases binarize <;> cases above <;> simp [thrPoint, Function.comp, abs_abs]

/-- C9 (implicit): in `Threshold` with `signed=False` and `binarize=False`,
the kept entries of the result are the absolute values of the original
data, not the original signed values — the series is replaced by its
absolute value before masking and returned as such (shown for both
`above=True` and `above=False`). -/
theorem threshold_unsigned_returns_abs :
    ∀ (data : List ℚ) (t : ℚ),
      threshold_transform data t false true false
          = data.map (fun x => if |t| ≤ |x| then |x| else 0)
        ∧ threshold_transform data t false false false
          = data.map (fun x => if |x| ≤ |t| then |x| else 0) := by
  intro data t
  constructor <;>
    · rw [threshold_transform_eq_map]
      refine congrArg (fun g => List.map g data) ?_
      funext x
      simp [thrPoint]

/-- C6: `Sum` with a weights vector whose element count differs from the
number of input columns fails with the ValueError of compute.py lines
32-34; with weights `[2, 2]` on two input columns `a` and `b` the result is
the weighted dot product `2*(a+b)` row-wise. -/
theorem sum_weights_arity_and_weighted_sum :
    (∀ (data : List (List ℚ)) (w : List ℚ), w.length ≠ data.length →
        sum_transform data (some w) = .error sum_weights_msg)
      ∧ ∀ (a b : List ℚ),
          sum_transform [a, b] (some [2, 2])
            = .ok (List.zipWith (fun x y => 2 * (x + y)) a b) := by
  constructor
  · intro data w h
    simp [sum_transform, h]
  · intro a b
    have h1 : dotCols [a, b] [2, 2]
        = List.zipWith (· + ·) (a.map fun v => (2 : ℚ) * v)
            (b.map fun v => (2 : ℚ) * v) := rfl
    have h2 : dotCols [a, b] [2, 2]
        = List.zipWith (fun x y : ℚ => 2 * (x + y)) a b := by
      rw [h1, zipWith_map_both]
      refine congrArg₂ (fun f l => List.zipWith f a l) ?_ rfl
      funext x y
      ring
    simp [sum_transform, h2]

/-- Witness for the hypotheses of `sum_weights_arity_and_weighted_sum`:
three weights on two columns raise the mismatch error, while weights
`[2, 2]` on columns `[1, 3]` and `[2, 4]` yield `[6, 14] = 2*([1,3]+[2,4])`. -/
theorem sum_weights_arity_witness :
    sum_transform [[(1 : ℚ)], [2]] (some [1, 1, 1]) = .error sum_weights_msg
      ∧ sum_transform [[(1 : ℚ), 3], [2, 4]] (some [2, 2]) = .ok [6, 14] := by
  constructor
  · exact sum_weights_arity_and_weighted_sum.1 [[(1 : ℚ)], [2]] [1, 1, 1]
      (by decide)
  · rw [sum_weights_arity_and_weighted_sum.2 [1, 3] [2, 4]]
    norm_num

section
/- Batteries marks the `Rat` arithmetic operations irreducible, which blocks
`decide`/`rfl` evaluation of the embedded functions at concrete rational
inputs; restore the default reducibility locally for the concrete theorems.
The kernel ignores reducibility attributes, so nothing about the proofs'
validity changes. -/
attribute [local semireducible] Rat.mul Rat.add Rat.sub Rat.inv Rat.ofScientific

/-- C1: the spec requires `to_dense(rate)` to ADD each event row's amplitude
into the buffer positions `[round(onset*rate), round(onset*rate) +
round(duration*rate))` so that overlapping events accumulate.  The code
cannot do this on any variable with two (overlapping or not) events: line
215 computes `math.ceil(sampling_rate * self.duration)` with
`self.duration` the whole per-event duration column, and converting a
2-element array to a float raises TypeError before any amplitude is
written.  (The fill statement itself, line 223, is the plain slice
assignment `ts[onsets[i]:ev_end] = row`, which overwrites rather than
adds.)  Evaluated at `exOverlap` — events `[0, 1)` s and `[0.5, 1.5)` s
with amplitudes 1 and 2 at rate 10, where the claim predicts samples 5-9
hold 3 — `to_dense` raises instead. -/
theorem to_dense_multi_event_raises :
    SparseRunVariable.to_dense exOverlap 10 = Except.error float_conv_msg
      ∧ SparseRunVariable.to_dense_ts exOverlap 10
          = Except.error float_conv_msg :=
  ⟨rfl, rfl⟩

/-- C2: the spec says the dense buffer has length `ceil(rate *
run_duration)`.  The code sizes it from the per-event duration column
instead: at rate 10, the single-event variable `exSingle` (event duration
1.2 s in a 20-second run) gets a buffer of `ceil(10 * 1.2) = 12` samples,
not `ceil(10 * 20) = 200` — and the repository's own test
(`test_rename` in test_transformations.py) expects the run-duration-based
length. -/
theorem to_dense_buflen_uses_event_duration :
    SparseRunVariable.to_dense_buflen exSingle 10 = Except.ok 12
      ∧ (ceilQ (10 * run20.duration)).toNat = 200
      ∧ (12 : ℕ) ≠ 200 :=
  ⟨rfl, by decide, by decide⟩

/-- C8: the spec says an event whose computed end index exceeds the buffer
length is clipped and `to_dense` does not raise.  The slice write is indeed
clipped — for `exLate` (event at onset 2 s, duration 1.2 s, rate 10) the
sample range `[20, 32)` lies wholly beyond the 12-sample buffer and the
fill loop completes, leaving the buffer untouched — but `to_dense` then
raises TypeError on every call, because line 225 constructs
`DenseRunVariable(self.name, pd.DataFrame(ts))` without the required
`run_info` and `sampling_rate` arguments. -/
theorem to_dense_clips_but_raises :
    SparseRunVariable.to_dense_ts exLate 10 = Except.ok (List.replicate 12 0)
      ∧ SparseRunVariable.to_dense exLate 10 = Except.error missing_args_msg :=
  ⟨rfl, rfl⟩

/-- C3 counterexample: the claim says an in-place `resample` at the current
rate returns the same object.  The in-place branch of the source ends in a
bare `return`, so the call returns `None`, not the variable: at the
concrete `exDense` (rate 2), `resample(2, inplace=True)` evaluates to
`Except.ok none`, which differs from returning the object itself. -/
theorem resample_equal_rate_returns_none :
    DenseRunVariable.resample exDense 2 true = Except.ok none
      ∧ DenseRunVariable.resample exDense 2 true
          ≠ Except.ok (some exDense) := by
  refine ⟨rfl, ?_⟩
  intro h
  rw [show DenseRunVariable.resample exDense 2 true = Except.ok none from rfl]
    at h
  simp at h

/-- C3 (amended): `resample` at a rate equal to the current sampling rate
is a no-op on the variable's state — values, entities and sampling rate
are all unchanged (the early return precedes every mutation) — and the
in-place call returns `None` (no value) rather than the object, while the
copying call returns an unchanged clone. -/
theorem resample_equal_rate_noop :
    ∀ (v : DenseRunVariable) (rate : ℚ), rate = v.sampling_rate →
      v.resample_inplace rate = v
        ∧ v.resample rate true = Except.ok none
        ∧ v.resample rate false = Except.ok (some v) := by
  intro v rate h
  have h1 : v.resample_inplace rate = v := by
    unfold DenseRunVariable.resample_inplace
    rw [if_pos h]
  have hok : v.resample_ok rate = true := by
    unfold DenseRunVariable.resample_ok
    simp [h]
  refine ⟨h1, ?_, ?_⟩ <;> simp [DenseRunVariable.resample, hok, h1]

/-- Witness for `resample_equal_rate_noop` at `exDense`, whose sampling
rate is 2. -/
theorem resample_equal_rate_noop_witness :
    DenseRunVariable.resample_inplace exDense 2 = exDense
      ∧ DenseRunVariable.resample exDense 2 true = Except.ok none
      ∧ DenseRunVariable.resample exDense 2 false = Except.ok (some exDense) :=
  resample_equal_rate_noop exDense 2 rfl

/-- C4 counterexample: the claim says a failing in-place `resample` leaves
no partially-updated fields.  At `exShort` (one sample at 1 Hz), resampling
to 10 Hz makes `interp1d` raise (a 1-entry array), yet the failed call has
already rebuilt `entities` at the new rate — 9 rows instead of 1 — while
`values` and `sampling_rate` still hold their prior values: the state is
neither all-mutated nor all-prior. -/
theorem resample_failure_not_atomic :
    DenseRunVariable.resample exShort 10 true = Except.error interp_err_msg
      ∧ (DenseRunVariable.resample_inplace exShort 10).entities
          ≠ exShort.entities
      ∧ (DenseRunVariable.resample_inplace exShort 10).values = exShort.values
      ∧ (DenseRunVariable.resample_inplace exShort 10).sampling_rate
          = exShort.sampling_rate :=
  ⟨rfl, by decide, by decide, by decide⟩

/-- C4 (amended): when an in-place `resample` to a different rate fails in
interpolation, the variable is left partially updated: `entities` has
already been rebuilt at the new rate (line 318 precedes the `interp1d`
call), while `values` and `sampling_rate` keep their prior state; the
ValueError propagates in both the in-place and the copying mode. -/
theorem resample_failure_partial_update :
    ∀ (v : DenseRunVariable) (rate : ℚ),
      rate ≠ v.sampling_rate →
      interp1d_fails v.entities.length v.values.length = true →
      v.resample rate true = Except.error interp_err_msg
        ∧ v.resample rate false = Except.error interp_err_msg
        ∧ v.resample_inplace rate
            = { v with entities := build_entity_index v.run_info rate } := by
  intro v rate h hf
  have hok : v.resample_ok rate = false := by
    unfold DenseRunVariable.resample_ok
    simp [h, hf]
  refine ⟨?_, ?_, ?_⟩
  · simp [DenseRunVariable.resample, hok]
  · simp [DenseRunVariable.resample, hok]
  · simp [DenseRunVariable.resample_inplace, h, hf]

/-- Witness for `resample_failure_partial_update` at `exShort` resampled to
10 Hz: the rate differs (10 vs 1) and `interp1d` rejects the one-sample
array. -/
theorem resample_failure_partial_update_witness :
    DenseRunVariable.resample exShort 10 true = Except.error interp_err_msg
      ∧ DenseRunVariable.resample exShort 10 false
          = Except.error interp_err_msg
      ∧ DenseRunVariable.resample_inplace exShort 10
          = { exShort with
                entities := build_entity_index exShort.run_info 10 } :=
  resample_failure_partial_update exShort 10 (by decide) (by decide)

/-- C5 counterexample: the claim says `merge` on variables with differing
names succeeds when an explicit name override is given.  It does not: the
name-conflict check (lines 56-59) runs before the `name` argument is ever
consulted, so merging `varA` ("a") with `varB` ("b") under the override
"c" still raises the ValueError. -/
theorem merge_override_still_errors :
    SimpleVariable.merge [varA, varB] (some "c")
      = Except.error name_conflict_msg := rfl

/-- C5 (amended): `merge` raises the name-conflict ValueError whenever the
inputs carry more than one distinct name, with or without an explicit
`name` override; the override only renames the result when the inputs
already share a single name, in which case the rows are concatenated. -/
theorem merge_name_conflict_despite_override :
    (∀ (vars : List SimpleVariable) (name : Option String),
        1 < ((vars.map (fun v => v.name)).dedup).length →
        SimpleVariable.merge vars name = Except.error name_conflict_msg)
      ∧ ∀ (v w : SimpleVariable) (nm : String), v.name = w.name →
          SimpleVariable.merge [v, w] (some nm)
            = Except.ok ⟨nm, v.values ++ w.values,
                v.entities ++ w.entities⟩ := by
  constructor
  · intro vars name h
    unfold SimpleVariable.merge
    rw [if_pos h]
  · intro v w nm h
    have hd : (([v, w].map (fun u => u.name)).dedup).length = 1 := by
      simp [h, List.dedup_cons_of_mem]
    have hlt : ¬ 1 < (([v, w].map (fun u => u.name)).dedup).length := by
      rw [hd]
      exact lt_irrefl 1
    unfold SimpleVariable.merge
    rw [if_neg hlt]
    simp

/-- Witness for `merge_name_conflict_despite_override`: `varA` and `varB`
("a" vs "b") conflict even without an override, and two variables both
named "a" merge under the override "c" into the concatenated rows. -/
theorem merge_name_conflict_witness :
    SimpleVariable.merge [varA, varB] none = Except.error name_conflict_msg
      ∧ SimpleVariable.merge [varA, varA2] (some "c")
          = Except.ok ⟨"c", [1, 3],
              [[("subject", "01")], [("subject", "03")]]⟩ := by
  constructor
  · exact merge_name_conflict_despite_override.1 [varA, varB] none (by decide)
  · exact merge_name_conflict_despite_override.2 varA varA2 "c" rfl

/-- C10 (implicit): for every `DenseRunVariable` and every non-empty
grouper, `split` raises and never returns the list of split variables,
because each result is constructed as `DenseRunVariable(name, values)`
while the constructor requires `run_info` and `sampling_rate` as well. -/
theorem dense_split_always_raises :
    ∀ (v : DenseRunVariable) (grouper : List (String × List ℚ)),
      grouper ≠ [] →
      DenseRunVariable.split v grouper = Except.error missing_args_msg := by
  intro v grouper h
  cases grouper with
  | nil => exact absurd rfl h
  | cons g gs => rfl

/-- Witness for `dense_split_always_raises`: splitting `exDense` by a
single binary indicator column raises the missing-arguments TypeError. -/
theorem dense_split_always_raises_witness :
    DenseRunVariable.split exDense [("g", [1, 1])]
      = Except.error missing_args_msg :=
  dense_split_always_raises exDense [("g", [1, 1])] (List.cons_ne_nil _ _)

end
